import Mathlib

/-!
Verification of the W32 exec-helper subsystem (common/exechelp-w32.c).

C strings are modelled as `List Char` (a C string is its NUL-free character
content).  Argument vectors are `List (List Char)`.  Windows `HANDLE` values
are modelled as `Int`, with `INVALID_HANDLE_VALUE` as `-1` (the source states
that `-1` denotes an invalid handle).  Native calls whose outcome depends on
the operating system (TerminateProcess, GetExitCodeProcess,
WaitForMultipleObjects, pipe/stream creation, CreateProcessW, malloc) are
modelled by explicit oracles passed as parameters.
-/

namespace Exechelp

/-! ## Command-line builder (build_w32_commandline_copy / build_w32_commandline) -/

/-- The characters tested by `strpbrk (string, " \t\n\v\f\"")`. -/
def isW32QuoteChar (c : Char) : Bool :=
  c == ' ' || c == '\t' || c == '\n' || c == '\x0b' || c == '\x0c' || c == '"'

/-- The inner copy loop of `build_w32_commandline_copy`: each character is
copied, and a double quote is copied twice. -/
def commandline_copy_loop : List Char → List Char
  | [] => []
  | c :: cs =>
    if c == '"' then c :: c :: commandline_copy_loop cs
    else c :: commandline_copy_loop cs

/-- `build_w32_commandline_copy (buffer, string)`: appends the rendering of
`string` to `buffer` (the C function writes at the cursor `p` and returns the
new cursor; we model the buffer contents written so far). -/
def build_w32_commandline_copy (buffer string : List Char) : List Char :=
  if string = [] then buffer ++ ['"', '"']
  else if string.any isW32QuoteChar then
    buffer ++ ['"'] ++ commandline_copy_loop string ++ ['"']
  else buffer ++ string

/-- The second loop of `build_w32_commandline`: for each argument, emit a
space and then the rendered token. -/
def commandline_args_loop (buffer : List Char) : List (List Char) → List Char
  | [] => buffer
  | a :: rest => commandline_args_loop (build_w32_commandline_copy (buffer ++ [' ']) a) rest

/-- `build_w32_commandline`: the full command line written into the buffer
(program name first, then each argument preceded by a space). -/
def build_w32_commandline (pgmname : List Char) (argv : List (List Char)) : List Char :=
  commandline_args_loop (build_w32_commandline_copy [] pgmname) argv

/-- The per-token quote count of the sizing loops
(`for (; *s; s++) if (*s == '\"') n++`). -/
def count_quotes : List Char → Nat
  | [] => 0
  | c :: cs => (if c == '"' then 1 else 0) + count_quotes cs

/-- Per-token byte budget: `strlen (s) + 1 + 2` plus one byte per embedded
double quote. -/
def commandline_token_size (s : List Char) : Nat :=
  s.length + 1 + 2 + count_quotes s

/-- The argv part of the sizing computation. -/
def commandline_size_loop : List (List Char) → Nat
  | [] => 0
  | a :: rest => commandline_token_size a + commandline_size_loop rest

/-- The byte count `n` computed by `build_w32_commandline` before allocating
the buffer (program budget, argument budgets, final `n++`). -/
def build_w32_commandline_size (pgmname : List Char) (argv : List (List Char)) : Nat :=
  commandline_token_size pgmname + commandline_size_loop argv + 1

/-! Specification-side rendering, written from the spec's words: a token with
none of the special characters is copied verbatim; any other non-empty token
is wrapped in double quotes with embedded double quotes doubled; an empty
token becomes the two-character token of two double quotes; tokens are joined
by single spaces, program path first. -/

/-- Rendering of one token, following the spec text. -/
def specQuoteToken (s : List Char) : List Char :=
  if s = [] then ['"', '"']
  else if s.any isW32QuoteChar then
    ('"' :: (s.map (fun c => if c == '"' then [c, c] else [c])).flatten) ++ ['"']
  else s

/-- The whole command line, following the spec text: tokens joined with
single spaces, program path first. -/
def specCommandline (pgmname : List Char) (argv : List (List Char)) : List Char :=
  List.intercalate [' '] ((pgmname :: argv).map specQuoteToken)

theorem commandline_copy_loop_eq (s : List Char) :
    commandline_copy_loop s = (s.map (fun c => if c == '"' then [c, c] else [c])).flatten := by
  induction s with
  | nil => rfl
  | cons c cs ih =>
    by_cases h : c = '"' <;> simp [commandline_copy_loop, h, ih]

theorem build_w32_commandline_copy_eq (buffer s : List Char) :
    build_w32_commandline_copy buffer s = buffer ++ specQuoteToken s := by
  unfold build_w32_commandline_copy specQuoteToken
  by_cases h0 : s = []
  · simp [h0]
  · by_cases h1 : s.any isW32QuoteChar <;>
      simp [h0, h1, commandline_copy_loop_eq]

theorem commandline_args_loop_eq (l : List (List Char)) :
    ∀ buffer, commandline_args_loop buffer l
      = buffer ++ (l.map (fun a => ' ' :: specQuoteToken a)).flatten := by
  induction l with
  | nil => intro buffer; simp [commandline_args_loop]
  | cons a rest ih =>
    intro buffer
    rw [commandline_args_loop, ih, build_w32_commandline_copy_eq]
    simp

theorem intercalate_space_eq (xs : List (List Char)) :
    ∀ x, List.intercalate [' '] (x :: xs)
      = x ++ (xs.map (fun a => ' ' :: a)).flatten := by
  induction xs with
  | nil => intro x; simp [List.intercalate]
  | cons y ys ih =>
    intro x
    have h := ih y
    simp only [List.intercalate] at h ⊢
    simp [List.intersperse] at h ⊢
    simp [h]

/-- C1: For every non-empty program path and every argument vector, the
command-line builder returns the tokens joined by single spaces with the
program path first; a token containing none of space, tab, newline, vertical
tab, form feed, or double quote is copied verbatim; any other non-empty token
is wrapped in double quotes with every embedded double quote doubled; an
empty token is rendered as the two-character string of two double quotes. -/
theorem build_w32_commandline_matches_spec
    (pgmname : List Char) (argv : List (List Char)) (hne : pgmname ≠ []) :
    build_w32_commandline pgmname argv = specCommandline pgmname argv := by
  clear hne
  rw [build_w32_commandline, specCommandline, List.map_cons,
      intercalate_space_eq, commandline_args_loop_eq,
      build_w32_commandline_copy_eq]
  simp only [List.map_map, List.nil_append]
  rfl

/-- Witness for C1 at a concrete input: program `g u` with arguments
`""`, `a`, `x"y`. -/
theorem build_w32_commandline_matches_spec_witness :
    (['g', ' ', 'u'] : List Char) ≠ []
    ∧ build_w32_commandline ['g', ' ', 'u'] [[], ['a'], ['x', '"', 'y']]
      = specCommandline ['g', ' ', 'u'] [[], ['a'], ['x', '"', 'y']] :=
  ⟨by decide, build_w32_commandline_matches_spec _ _ (by decide)⟩

theorem doubled_quotes_length (s : List Char) :
    ((s.map (fun c => if c == '"' then [c, c] else [c])).flatten).length
      = s.length + count_quotes s := by
  induction s with
  | nil => rfl
  | cons c cs ih =>
    rw [List.map_cons, List.flatten_cons, List.length_append, ih]
    by_cases h : c = '"'
    · subst h; simp [count_quotes]; omega
    · simp [count_quotes, h]
      omega

theorem specQuoteToken_length (s : List Char) :
    (specQuoteToken s).length ≤ s.length + 2 + count_quotes s := by
  unfold specQuoteToken
  by_cases h0 : s = []
  · simp [h0, count_quotes]
  · rw [if_neg h0]
    by_cases h1 : s.any isW32QuoteChar
    · rw [if_pos h1]
      simp only [List.length_append, List.length_cons]
      rw [doubled_quotes_length]
      simp
      omega
    · rw [if_neg h1]
      omega

/-- C10: the byte count computed by `build_w32_commandline` is sufficient for
the rendered command line plus the terminating NUL, so every store of
`build_w32_commandline_copy` and of the join loop stays inside the `n`-byte
allocation. -/
theorem build_w32_commandline_size_sufficient
    (pgmname : List Char) (argv : List (List Char)) :
    (build_w32_commandline pgmname argv).length + 1
      ≤ build_w32_commandline_size pgmname argv := by
  rw [build_w32_commandline, commandline_args_loop_eq, build_w32_commandline_copy_eq]
  simp only [List.nil_append, List.length_append]
  rw [build_w32_commandline_size]
  have hpgm := specQuoteToken_length pgmname
  have hargs : ((argv.map (fun a => ' ' :: specQuoteToken a)).flatten).length
      ≤ commandline_size_loop argv := by
    induction argv with
    | nil => simp [commandline_size_loop]
    | cons a rest ih =>
      have ha := specQuoteToken_length a
      simp only [List.map_cons, List.flatten_cons, List.length_append,
        commandline_size_loop, commandline_token_size, List.length_cons]
      omega
  unfold commandline_token_size
  omega

/-! ## Error codes (libgpg-error numbering; only distinctness matters) -/

def GPG_ERR_GENERAL : Nat := 1
def GPG_ERR_INV_VALUE : Nat := 55
def GPG_ERR_TIMEOUT : Nat := 62
def GPG_ERR_UNFINISHED : Nat := 199
def GPG_ERR_UNKNOWN_COMMAND : Nat := 180

/-! ## Process handle (struct gnupg_process) -/

/-- `INVALID_HANDLE_VALUE`, the sentinel for an absent native handle. -/
def INVALID_HANDLE_VALUE : Int := -1

/-- `struct gnupg_process`: program name, terminated flag, launch flags,
native process handle, the three retained stream ends, cached exit code. -/
structure gnupg_process where
  pgmname : List Char
  terminated : Bool
  flags : Nat
  hProcess : Int
  hd_in : Int
  hd_out : Int
  hd_err : Int
  exitcode : Int
  deriving DecidableEq, Repr

def set_hProcess (p : gnupg_process) (v : Int) : gnupg_process :=
  ⟨p.pgmname, p.terminated, p.flags, v, p.hd_in, p.hd_out, p.hd_err, p.exitcode⟩

def set_hd_in (p : gnupg_process) (v : Int) : gnupg_process :=
  ⟨p.pgmname, p.terminated, p.flags, p.hProcess, v, p.hd_out, p.hd_err, p.exitcode⟩

def set_hd_out (p : gnupg_process) (v : Int) : gnupg_process :=
  ⟨p.pgmname, p.terminated, p.flags, p.hProcess, p.hd_in, v, p.hd_err, p.exitcode⟩

def set_hd_err (p : gnupg_process) (v : Int) : gnupg_process :=
  ⟨p.pgmname, p.terminated, p.flags, p.hProcess, p.hd_in, p.hd_out, v, p.exitcode⟩

/-- Outcomes of the native calls a control operation may perform.
`terminateProcessOk` is whether `TerminateProcess` returns nonzero;
`getExitCodeResult` is `some code` when `GetExitCodeProcess` succeeds with
that code and `none` when the call fails; `syserror` is the value of
`gpg_err_code_from_syserror ()`. -/
structure NativeWorld where
  terminateProcessOk : Bool
  getExitCodeResult : Option Int
  syserror : Nat
  deriving DecidableEq, Repr

/-- Output slots written through the variadic pointers of
`gnupg_process_ctl` (`none` means the slot was not written). -/
structure VctlOut where
  r_id : Option Int
  r_exit_status : Option Int
  r_hProcess : Option Int
  r_hd_in : Option Int
  r_hd_out : Option Int
  r_hd_err : Option Int
  r_exitcode : Option Int
  deriving DecidableEq, Repr

/-- No output slot written. -/
def noOut : VctlOut := ⟨none, none, none, none, none, none, none⟩

def outExitStatus (v : Int) : VctlOut := ⟨none, some v, none, none, none, none, none⟩

def outExitcode (v : Int) : VctlOut := ⟨none, none, none, none, none, none, some v⟩

def outId (v : Int) : VctlOut := ⟨some v, none, none, none, none, none, none⟩

def outPHandle (v : Int) : VctlOut := ⟨none, none, some v, none, none, none, none⟩

/-- The requests of the variadic `process_vctl`; pointer arguments are
modelled by `Bool`s saying whether the caller passed a non-null pointer. -/
inductive ProcRequest where
  | nop
  | getId (provided : Bool)
  | getExitId
  | getPHandle (provided : Bool)
  | getHandles (want_in want_out want_err : Bool)
  | getExitCode
  | killWithEC (exitcode : Nat)
  | unknownReq (n : Nat)
  deriving DecidableEq, Repr

/-- `process_kill`: calls `TerminateProcess (process->hProcess, exitcode)`;
`ec` starts at 0 and is set to `gpg_err_code_from_syserror ()` when
`TerminateProcess` returns nonzero.  The process record is not touched. -/
def process_kill (w : NativeWorld) (process : gnupg_process) (exitcode : Nat) :
    Nat × gnupg_process :=
  let _ := exitcode
  let ec := if w.terminateProcessOk then w.syserror else 0
  (ec, process)

/-- `gnupg_process_terminate`: `process_kill (process, 1)`. -/
def gnupg_process_terminate (w : NativeWorld) (process : gnupg_process) :
    Nat × gnupg_process :=
  process_kill w process 1

/-- `process_vctl`: returns the error code, the process record after the
call, and the written output slots. -/
def process_vctl (w : NativeWorld) (process : gnupg_process) :
    ProcRequest → Nat × gnupg_process × VctlOut
  | .nop => (0, process, noOut)
  | .getId provided =>
    if !provided then (GPG_ERR_INV_VALUE, process, noOut)
    else (0, process, outId process.hProcess)
  | .getExitId =>
    if !process.terminated then (GPG_ERR_UNFINISHED, process, outExitStatus (-1))
    else if process.hProcess = INVALID_HANDLE_VALUE then (0, process, outExitStatus (-1))
    else
      match w.getExitCodeResult with
      | none => (w.syserror, process, outExitStatus (-1))
      | some code => (0, process, outExitStatus code)
  | .getPHandle provided =>
    if !provided then (GPG_ERR_INV_VALUE, process, noOut)
    else (0, set_hProcess process INVALID_HANDLE_VALUE, outPHandle process.hProcess)
  | .getHandles want_in want_out want_err =>
    let o1 : Option Int := if want_in then some process.hd_in else none
    let p1 := if want_in then set_hd_in process INVALID_HANDLE_VALUE else process
    let o2 : Option Int := if want_out then some p1.hd_out else none
    let p2 := if want_out then set_hd_out p1 INVALID_HANDLE_VALUE else p1
    let o3 : Option Int := if want_err then some p2.hd_err else none
    let p3 := if want_err then set_hd_err p2 INVALID_HANDLE_VALUE else p2
    (0, p3, ⟨none, none, none, o1, o2, o3, none⟩)
  | .getExitCode =>
    if !process.terminated then (GPG_ERR_UNFINISHED, process, noOut)
    else if process.hProcess = INVALID_HANDLE_VALUE then (0, process, outExitcode (-1))
    else
      match w.getExitCodeResult with
      | none => (w.syserror, process, noOut)
      | some code => (0, process, outExitcode code)
  | .killWithEC exitcode =>
    if process.terminated then (0, process, noOut)
    else if process.hProcess = INVALID_HANDLE_VALUE then (0, process, noOut)
    else
      let r := process_kill w process exitcode
      (r.1, r.2, noOut)
  | .unknownReq _ => (GPG_ERR_UNKNOWN_COMMAND, process, noOut)

/-- `gnupg_process_get_fds`: each requested retained handle is passed to
`_open_osfhandle` and the field is reset to `INVALID_HANDLE_VALUE`.  We
record the handle value handed over. -/
def gnupg_process_get_fds (process : gnupg_process)
    (want_in want_out want_err : Bool) :
    gnupg_process × (Option Int × Option Int × Option Int) :=
  let o1 : Option Int := if want_in then some process.hd_in else none
  let p1 := if want_in then set_hd_in process INVALID_HANDLE_VALUE else process
  let o2 : Option Int := if want_out then some p1.hd_out else none
  let p2 := if want_out then set_hd_out p1 INVALID_HANDLE_VALUE else p1
  let o3 : Option Int := if want_err then some p2.hd_err else none
  let p3 := if want_err then set_hd_err p2 INVALID_HANDLE_VALUE else p2
  (p3, (o1, o2, o3))

/-- `gnupg_process_get_streams`: each requested retained handle is wrapped by
`es_sysopen` and the field is reset to `INVALID_HANDLE_VALUE`.  We record the
handle value handed over (the `nonblock` mode does not affect the
hand-off). -/
def gnupg_process_get_streams (process : gnupg_process)
    (want_in want_out want_err : Bool) :
    gnupg_process × (Option Int × Option Int × Option Int) :=
  let o1 : Option Int := if want_in then some process.hd_in else none
  let p1 := if want_in then set_hd_in process INVALID_HANDLE_VALUE else process
  let o2 : Option Int := if want_out then some p1.hd_out else none
  let p2 := if want_out then set_hd_out p1 INVALID_HANDLE_VALUE else p1
  let o3 : Option Int := if want_err then some p2.hd_err else none
  let p3 := if want_err then set_hd_err p2 INVALID_HANDLE_VALUE else p2
  (p3, (o1, o2, o3))

/-! ## Release (gnupg_process_release) -/

/-- The observable steps `gnupg_process_release` can perform. -/
inductive ReleaseStep where
  | terminate   -- gnupg_process_terminate (process)
  | wait        -- gnupg_process_wait (process, 1), blocking
  | free        -- xfree (process)
  deriving DecidableEq, Repr

/-- `gnupg_process_release`: for a null handle nothing happens; otherwise, if
`process->terminated` is set, the code calls `gnupg_process_terminate` and
then a blocking `gnupg_process_wait`, and finally frees the record. -/
def gnupg_process_release : Option gnupg_process → List ReleaseStep
  | none => []
  | some process =>
    if process.terminated then
      [ReleaseStep.terminate, ReleaseStep.wait, ReleaseStep.free]
    else [ReleaseStep.free]

/-! ## Concrete fixtures used by closed theorems -/

/-- A handle still recorded as running (terminated flag clear). -/
def runningProc : gnupg_process := ⟨['p'], false, 0, 5, 7, 8, 9, -1⟩

/-- A handle already recorded as terminated. -/
def doneProc : gnupg_process := ⟨['p'], true, 0, 5, 7, 8, 9, -1⟩

/-- A handle whose native reference was already transferred away. -/
def transferredProc : gnupg_process := ⟨['p'], false, 0, -1, 7, 8, 9, -1⟩

/-- A world where `TerminateProcess` fails (returns 0) with `errno`-derived
code 11. -/
def worldTermFails : NativeWorld := ⟨false, some 0, 11⟩

/-- A world where `TerminateProcess` succeeds (returns nonzero) with
`errno`-derived code 11. -/
def worldTermOk : NativeWorld := ⟨true, some 0, 11⟩

/-- C2 (code_bug): the release test is inverted.  On a handle whose
terminated flag is clear (a process still recorded as running) the code frees
the record without terminating or waiting, and on a handle whose terminated
flag is set it invokes terminate and a blocking wait before freeing —
exactly the opposite of the claimed behavior. -/
theorem gnupg_process_release_is_inverted :
    gnupg_process_release (some runningProc) = [ReleaseStep.free]
    ∧ gnupg_process_release (some doneProc)
        = [ReleaseStep.terminate, ReleaseStep.wait, ReleaseStep.free] := by
  constructor <;> rfl

/-- C8 (code_bug): `process_kill` tests `TerminateProcess` the wrong way
round: when the native termination primitive fails it returns 0 (success),
and when the primitive succeeds it returns the `errno`-derived code. -/
theorem process_kill_result_is_inverted :
    (process_kill worldTermFails runningProc 9).1 = 0
    ∧ (process_kill worldTermOk runningProc 9).1 = 11
    ∧ (11 : Nat) ≠ 0 := by
  refine ⟨rfl, rfl, by decide⟩

/-- C5: neither `process_kill` (hence `gnupg_process_terminate`) nor the
kill-with-exit-code control request modifies the handle's terminated flag or
cached exit status, and the kill-with-exit-code request is a no-op returning
success when the native reference is the invalid-handle sentinel or when
terminated is already set. -/
theorem kill_preserves_terminated_and_exitcode
    (w : NativeWorld) (p : gnupg_process) (ec : Nat) :
    ((process_vctl w p (ProcRequest.killWithEC ec)).2.1.terminated = p.terminated
      ∧ (process_vctl w p (ProcRequest.killWithEC ec)).2.1.exitcode = p.exitcode)
    ∧ ((process_kill w p ec).2.terminated = p.terminated
      ∧ (process_kill w p ec).2.exitcode = p.exitcode)
    ∧ ((gnupg_process_terminate w p).2.terminated = p.terminated
      ∧ (gnupg_process_terminate w p).2.exitcode = p.exitcode)
    ∧ (p.hProcess = INVALID_HANDLE_VALUE →
        process_vctl w p (ProcRequest.killWithEC ec) = (0, p, noOut))
    ∧ (p.terminated = true →
        process_vctl w p (ProcRequest.killWithEC ec) = (0, p, noOut)) := by
  refine ⟨?_, ⟨rfl, rfl⟩, ⟨rfl, rfl⟩, ?_, ?_⟩
  · by_cases h1 : p.terminated <;>
      by_cases h2 : p.hProcess = INVALID_HANDLE_VALUE <;>
        simp [process_vctl, h1, h2, process_kill]
  · intro h
    by_cases h1 : p.terminated <;> simp [process_vctl, h1, h]
  · intro h
    simp [process_vctl, h]

/-- Witness for C5: a transferred-away handle and an already-terminated
handle are both no-ops returning success. -/
theorem kill_preserves_terminated_and_exitcode_witness :
    (transferredProc.hProcess = INVALID_HANDLE_VALUE
      ∧ process_vctl worldTermOk transferredProc (ProcRequest.killWithEC 3)
          = (0, transferredProc, noOut))
    ∧ (doneProc.terminated = true
      ∧ process_vctl worldTermOk doneProc (ProcRequest.killWithEC 3)
          = (0, doneProc, noOut)) :=
  ⟨⟨by decide,
    (kill_preserves_terminated_and_exitcode worldTermOk transferredProc 3).2.2.2.1
      (by decide)⟩,
   ⟨by decide,
    (kill_preserves_terminated_and_exitcode worldTermOk doneProc 3).2.2.2.2
      (by decide)⟩⟩

/-- C6: while the terminated flag is clear, both exit-status queries return
the distinct `GPG_ERR_UNFINISHED` code (never a zero/stale status as
success); once terminated is set, the query succeeds with the native exit
status (or with the cached `-1` when the native reference was transferred
away). -/
theorem exit_query_unfinished_spec (w : NativeWorld) (p : gnupg_process) :
    (p.terminated = false →
      (process_vctl w p ProcRequest.getExitCode).1 = GPG_ERR_UNFINISHED
      ∧ (process_vctl w p ProcRequest.getExitId).1 = GPG_ERR_UNFINISHED
      ∧ GPG_ERR_UNFINISHED ≠ 0
      ∧ GPG_ERR_UNFINISHED ≠ GPG_ERR_TIMEOUT)
    ∧ (p.terminated = true → p.hProcess ≠ INVALID_HANDLE_VALUE →
        ∀ c, w.getExitCodeResult = some c →
          process_vctl w p ProcRequest.getExitCode = (0, p, outExitcode c)
          ∧ process_vctl w p ProcRequest.getExitId = (0, p, outExitStatus c))
    ∧ (p.terminated = true → p.hProcess = INVALID_HANDLE_VALUE →
        process_vctl w p ProcRequest.getExitCode = (0, p, outExitcode (-1))
        ∧ process_vctl w p ProcRequest.getExitId = (0, p, outExitStatus (-1))) := by
  refine ⟨?_, ?_, ?_⟩
  · intro h
    refine ⟨?_, ?_, by decide, by decide⟩ <;> simp [process_vctl, h]
  · intro h1 h2 c hc
    constructor <;> simp [process_vctl, h1, h2, hc]
  · intro h1 h2
    constructor <;> simp [process_vctl, h1, h2]

/-- Witness for C6: a still-running handle reports unfinished; a terminated
handle with native exit code 4 reports it successfully. -/
theorem exit_query_unfinished_spec_witness :
    (runningProc.terminated = false
      ∧ ((process_vctl worldTermFails runningProc ProcRequest.getExitCode).1
            = GPG_ERR_UNFINISHED
        ∧ (process_vctl worldTermFails runningProc ProcRequest.getExitId).1
            = GPG_ERR_UNFINISHED
        ∧ GPG_ERR_UNFINISHED ≠ 0
        ∧ GPG_ERR_UNFINISHED ≠ GPG_ERR_TIMEOUT))
    ∧ (doneProc.terminated = true ∧ doneProc.hProcess ≠ INVALID_HANDLE_VALUE
      ∧ (⟨true, some 4, 11⟩ : NativeWorld).getExitCodeResult = some 4
      ∧ (process_vctl ⟨true, some 4, 11⟩ doneProc ProcRequest.getExitCode
            = (0, doneProc, outExitcode 4)
        ∧ process_vctl ⟨true, some 4, 11⟩ doneProc ProcRequest.getExitId
            = (0, doneProc, outExitStatus 4))) :=
  ⟨⟨by decide, (exit_query_unfinished_spec worldTermFails runningProc).1 (by decide)⟩,
   ⟨by decide, by decide, by decide,
    (exit_query_unfinished_spec ⟨true, some 4, 11⟩ doneProc).2.1
      (by decide) (by decide) 4 (by decide)⟩⟩

/-! ## C9: single hand-off of the retained stream ends -/

/-- The three operations that can transfer a retained stream end out of the
process record. -/
inductive HandOp where
  | viaFds
  | viaStreams
  | viaCtl
  deriving DecidableEq, Repr

/-- A fixed world for `process_vctl`; the get-handles request performs no
native call, so its behavior does not depend on it. -/
def anyWorld : NativeWorld := ⟨true, none, 0⟩

/-- Hand off the stdin write end through one of the three operations. -/
def hand_off_stdin : HandOp → gnupg_process → gnupg_process × Option Int
  | HandOp.viaFds, p =>
    let r := gnupg_process_get_fds p true false false
    (r.1, r.2.1)
  | HandOp.viaStreams, p =>
    let r := gnupg_process_get_streams p true false false
    (r.1, r.2.1)
  | HandOp.viaCtl, p =>
    let r := process_vctl anyWorld p (ProcRequest.getHandles true false false)
    (r.2.1, r.2.2.r_hd_in)

/-- Hand off the stdout read end through one of the three operations. -/
def hand_off_stdout : HandOp → gnupg_process → gnupg_process × Option Int
  | HandOp.viaFds, p =>
    let r := gnupg_process_get_fds p false true false
    (r.1, r.2.2.1)
  | HandOp.viaStreams, p =>
    let r := gnupg_process_get_streams p false true false
    (r.1, r.2.2.1)
  | HandOp.viaCtl, p =>
    let r := process_vctl anyWorld p (ProcRequest.getHandles false true false)
    (r.2.1, r.2.2.r_hd_out)

/-- Hand off the stderr read end through one of the three operations. -/
def hand_off_stderr : HandOp → gnupg_process → gnupg_process × Option Int
  | HandOp.viaFds, p =>
    let r := gnupg_process_get_fds p false false true
    (r.1, r.2.2.2)
  | HandOp.viaStreams, p =>
    let r := gnupg_process_get_streams p false false true
    (r.1, r.2.2.2)
  | HandOp.viaCtl, p =>
    let r := process_vctl anyWorld p (ProcRequest.getHandles false false true)
    (r.2.1, r.2.2.r_hd_err)

/-- C9: after any of `gnupg_process_get_fds`, `gnupg_process_get_streams` or
the get-handles control request transfers a stream end, the corresponding
field equals the invalid-handle sentinel, and a second hand-off through any
of the three operations yields the sentinel rather than a live handle. -/
theorem stream_ends_handed_off_at_most_once
    (o1 o2 : HandOp) (p : gnupg_process) :
    ((hand_off_stdin o1 p).1.hd_in = INVALID_HANDLE_VALUE
      ∧ (hand_off_stdin o2 (hand_off_stdin o1 p).1).2 = some INVALID_HANDLE_VALUE)
    ∧ ((hand_off_stdout o1 p).1.hd_out = INVALID_HANDLE_VALUE
      ∧ (hand_off_stdout o2 (hand_off_stdout o1 p).1).2 = some INVALID_HANDLE_VALUE)
    ∧ ((hand_off_stderr o1 p).1.hd_err = INVALID_HANDLE_VALUE
      ∧ (hand_off_stderr o2 (hand_off_stderr o1 p).1).2 = some INVALID_HANDLE_VALUE) := by
  cases o1 <;> cases o2 <;>
    simp [hand_off_stdin, hand_off_stdout, hand_off_stderr,
      gnupg_process_get_fds, gnupg_process_get_streams, process_vctl,
      set_hd_in, set_hd_out, set_hd_err]

/-! ## Multi-process wait (gnupg_wait_processes) -/

/-- Result classes of `WaitForMultipleObjects`. -/
inductive WaitCode where
  | object0      -- WAIT_OBJECT_0: joint wait completed
  | timeout      -- WAIT_TIMEOUT
  | failed       -- WAIT_FAILED
  | unexpected (n : Nat)
  deriving DecidableEq, Repr

/-- What a call to `gnupg_wait_processes` produces: the aggregate error code,
the contents of the caller-supplied `r_exitcodes` array (if supplied), the
programs named by `error running` diagnostics, and whether
`WaitForMultipleObjects` was reached. -/
structure WaitOutcome where
  ec : Nat
  exitcodes : Option (List Int)
  diags : List (List Char)
  waited : Bool
  deriving DecidableEq, Repr

/-- The first loop of `gnupg_wait_processes`: each requested `r_exitcodes`
slot is set to `-1`, then a pid of `-1` aborts the call.  Returns the slots
written and whether the scan completed. -/
def wait_init_loop : List Int → Bool × List Int
  | [] => (true, [])
  | q :: qs =>
    if q = -1 then (false, [-1])
    else
      let r := wait_init_loop qs
      (r.1, -1 :: r.2)

/-- The `WAIT_OBJECT_0` loop of `gnupg_wait_processes`: for each process,
`GetExitCodeProcess` failure sets the aggregate code to general failure; a
nonzero exit status sets it to general failure and either stores the status
(when the caller passed `r_exitcodes`) or logs a diagnostic naming the
program; a zero status stores 0.  Returns the aggregate code, the
`r_exitcodes` contents (meaningful when `want` is true) and the diagnostics
in order. -/
def wait_status_loop (want : Bool) :
    List (List Char) → List (Option Nat) → Nat → Nat × (List Int × List (List Char))
  | [], _, ec => (ec, ([], []))
  | _ :: _, [], ec => (ec, ([], []))
  | n :: ns, e :: es, ec =>
    match e with
    | none =>
      let r := wait_status_loop want ns es GPG_ERR_GENERAL
      (r.1, ((-1) :: r.2.1, r.2.2))
    | some exc =>
      if exc ≠ 0 then
        if want then
          let r := wait_status_loop want ns es GPG_ERR_GENERAL
          (r.1, ((exc : Int) :: r.2.1, r.2.2))
        else
          let r := wait_status_loop want ns es GPG_ERR_GENERAL
          (r.1, ((-1) :: r.2.1, n :: r.2.2))
      else
        let r := wait_status_loop want ns es ec
        (r.1, ((0 : Int) :: r.2.1, r.2.2))

/-- `gnupg_wait_processes` over `count = pids.length` processes.  `excs` is
the oracle for `GetExitCodeProcess` on each native handle (`none` = the call
fails); `want` says whether the caller supplied `r_exitcodes`.  `hang` only
selects INFINITE versus 0 inside `WaitForMultipleObjects`, whose outcome is
the `code` oracle. -/
def gnupg_wait_processes (pgmnames : List (List Char)) (pids : List Int)
    (hang : Bool) (code : WaitCode) (excs : List (Option Nat)) (want : Bool) :
    WaitOutcome :=
  let _ := hang
  let ini := wait_init_loop pids
  if !ini.1 then
    ⟨GPG_ERR_INV_VALUE, if want then some ini.2 else none, [], false⟩
  else
    match code with
    | WaitCode.timeout =>
      ⟨GPG_ERR_TIMEOUT, if want then some ini.2 else none, [], true⟩
    | WaitCode.failed =>
      ⟨GPG_ERR_GENERAL, if want then some ini.2 else none, [], true⟩
    | WaitCode.unexpected _ =>
      ⟨GPG_ERR_GENERAL, if want then some ini.2 else none, [], true⟩
    | WaitCode.object0 =>
      let r := wait_status_loop want pgmnames excs 0
      ⟨r.1, if want then some r.2.1 else none, r.2.2, true⟩

theorem wait_init_loop_complete (pids : List Int) :
    (wait_init_loop pids).1 = true ↔ (-1 : Int) ∉ pids := by
  induction pids with
  | nil => simp [wait_init_loop]
  | cons q qs ih =>
    by_cases h : q = -1
    · subst h; simp [wait_init_loop]
    · have h2 : (-1 : Int) ≠ q := fun heq => h heq.symm
      simp [wait_init_loop, h, h2, ih]

theorem wait_status_loop_ec (want : Bool) (names : List (List Char))
    (sts : List Nat) (ec0 : Nat) (hlen : names.length = sts.length) :
    (wait_status_loop want names (sts.map some) ec0).1
      = if sts.any (fun s => s ≠ 0) then GPG_ERR_GENERAL else ec0 := by
  induction names generalizing sts ec0 with
  | nil =>
    cases sts with
    | nil => simp [wait_status_loop]
    | cons s ss => simp at hlen
  | cons n ns ih =>
    cases sts with
    | nil => simp at hlen
    | cons s ss =>
      simp only [List.length_cons, Nat.add_right_cancel_iff] at hlen
      by_cases hs : s = 0
      · subst hs
        simp [wait_status_loop, ih ss ec0 hlen]
      · have hgen := ih ss GPG_ERR_GENERAL hlen
        cases want <;> simp [wait_status_loop, hs, hgen]

theorem wait_status_loop_codes (names : List (List Char))
    (sts : List Nat) (ec0 : Nat) (hlen : names.length = sts.length) :
    (wait_status_loop true names (sts.map some) ec0).2.1
      = sts.map (fun s => (s : Int)) := by
  induction names generalizing sts ec0 with
  | nil =>
    cases sts with
    | nil => simp [wait_status_loop]
    | cons s ss => simp at hlen
  | cons n ns ih =>
    cases sts with
    | nil => simp at hlen
    | cons s ss =>
      simp only [List.length_cons, Nat.add_right_cancel_iff] at hlen
      by_cases hs : s = 0
      · subst hs; simp [wait_status_loop, ih ss ec0 hlen]
      · simp [wait_status_loop, hs, ih ss GPG_ERR_GENERAL hlen]

theorem wait_status_loop_diags (names : List (List Char))
    (sts : List Nat) (ec0 : Nat) (hlen : names.length = sts.length) :
    (wait_status_loop false names (sts.map some) ec0).2.2
      = ((names.zip sts).filter (fun q => q.2 != 0)).map Prod.fst := by
  induction names generalizing sts ec0 with
  | nil =>
    cases sts with
    | nil => simp [wait_status_loop]
    | cons s ss => simp at hlen
  | cons n ns ih =>
    cases sts with
    | nil => simp at hlen
    | cons s ss =>
      simp only [List.length_cons, Nat.add_right_cancel_iff] at hlen
      by_cases hs : s = 0
      · subst hs; simp [wait_status_loop, ih ss ec0 hlen]
      · simp [wait_status_loop, hs, ih ss GPG_ERR_GENERAL hlen]

/-- C4: a pid of `-1` is rejected with the invalid-value code before any
waiting; after a successful joint wait with all native exit-code queries
succeeding, a caller-supplied `r_exitcodes` receives each process's true
individual exit status, the aggregate result is a generic failure exactly
when some status is nonzero (with a diagnostic naming each failing program
when `r_exitcodes` is null), and the aggregate result is success exactly when
every status is zero. -/
theorem gnupg_wait_processes_spec (names : List (List Char)) (pids : List Int)
    (sts : List Nat) (want hang : Bool)
    (hlen1 : names.length = sts.length) (hlen2 : pids.length = sts.length) :
    ((-1 : Int) ∈ pids →
      ∀ code, (gnupg_wait_processes names pids hang code (sts.map some) want).ec
            = GPG_ERR_INV_VALUE
        ∧ (gnupg_wait_processes names pids hang code (sts.map some) want).waited
            = false)
    ∧ ((-1 : Int) ∉ pids →
        (want = true →
          (gnupg_wait_processes names pids hang WaitCode.object0 (sts.map some)
            want).exitcodes = some (sts.map (fun s => (s : Int))))
        ∧ ((gnupg_wait_processes names pids hang WaitCode.object0 (sts.map some)
              want).ec = GPG_ERR_GENERAL ↔ ∃ s ∈ sts, s ≠ 0)
        ∧ ((gnupg_wait_processes names pids hang WaitCode.object0 (sts.map some)
              want).ec = 0 ↔ ∀ s ∈ sts, s = 0)
        ∧ (want = false →
          (gnupg_wait_processes names pids hang WaitCode.object0 (sts.map some)
              want).diags
            = ((names.zip sts).filter (fun q => q.2 != 0)).map Prod.fst)) := by
  clear hlen2
  constructor
  · intro hmem code
    have h : (wait_init_loop pids).1 = false := by
      cases hb : (wait_init_loop pids).1
      · rfl
      · exact absurd hmem ((wait_init_loop_complete pids).mp hb)
    constructor <;> simp [gnupg_wait_processes, h]
  · intro hmem
    have h : (wait_init_loop pids).1 = true := (wait_init_loop_complete pids).mpr hmem
    have hec := wait_status_loop_ec want names sts 0 hlen1
    refine ⟨?_, ?_, ?_, ?_⟩
    · intro hw; subst hw
      simp [gnupg_wait_processes, h, wait_status_loop_codes names sts 0 hlen1]
    · simp only [gnupg_wait_processes, h, Bool.not_true, Bool.false_eq_true,
        if_false]
      rw [hec]
      by_cases hany : sts.any (fun s => s ≠ 0)
      · simp only [hany, if_true]
        simp only [List.any_eq_true, decide_eq_true_eq] at hany
        simp [hany, GPG_ERR_GENERAL]
      · simp only [hany, Bool.false_eq_true, if_false]
        simp only [List.any_eq_true, decide_eq_true_eq, not_exists, not_and,
          not_not] at hany
        constructor
        · intro h0; exact absurd h0.symm (by decide)
        · intro ⟨s, hs, hsne⟩; exact absurd (hany s hs) hsne
    · simp only [gnupg_wait_processes, h, Bool.not_true, Bool.false_eq_true,
        if_false]
      rw [hec]
      by_cases hany : sts.any (fun s => s ≠ 0)
      · simp only [hany, if_true]
        simp only [List.any_eq_true, decide_eq_true_eq] at hany
        constructor
        · intro h0; exact absurd h0 (by decide)
        · intro hall
          obtain ⟨s, hs, hsne⟩ := hany
          exact absurd (hall s hs) hsne
      · simp only [hany, Bool.false_eq_true, if_false, true_iff]
        simp only [List.any_eq_true, decide_eq_true_eq, not_exists, not_and,
          not_not] at hany
        exact hany
    · intro hw; subst hw
      simp [gnupg_wait_processes, h, wait_status_loop_diags names sts 0 hlen1]

/-- Witness for C4: programs `a`, `b` with pids 3, 4 and exit statuses 0, 9;
the caller supplies `r_exitcodes`.  Also the rejection branch for pid list
containing `-1`. -/
theorem gnupg_wait_processes_spec_witness :
    ((gnupg_wait_processes [['a'], ['b']] [3, -1] true WaitCode.timeout
        ([0, 9].map some) true).ec = GPG_ERR_INV_VALUE
      ∧ (gnupg_wait_processes [['a'], ['b']] [3, -1] true WaitCode.timeout
        ([0, 9].map some) true).waited = false)
    ∧ ((true = true →
          (gnupg_wait_processes [['a'], ['b']] [3, 4] true WaitCode.object0
              ([0, 9].map some) true).exitcodes
            = some ([0, 9].map (fun s => (s : Int))))
        ∧ ((gnupg_wait_processes [['a'], ['b']] [3, 4] true WaitCode.object0
              ([0, 9].map some) true).ec = GPG_ERR_GENERAL
            ↔ ∃ s ∈ [0, 9], s ≠ 0)
        ∧ ((gnupg_wait_processes [['a'], ['b']] [3, 4] true WaitCode.object0
              ([0, 9].map some) true).ec = 0 ↔ ∀ s ∈ [0, 9], s = 0)
        ∧ (true = false →
          (gnupg_wait_processes [['a'], ['b']] [3, 4] true WaitCode.object0
              ([0, 9].map some) true).diags
            = (([['a'], ['b']].zip [0, 9]).filter (fun q => q.2 != 0)).map
                Prod.fst)) :=
  ⟨(gnupg_wait_processes_spec [['a'], ['b']] [3, -1] [0, 9] true true
      (by decide) (by decide)).1 (by decide) WaitCode.timeout,
   (gnupg_wait_processes_spec [['a'], ['b']] [3, 4] [0, 9] true true
      (by decide) (by decide)).2 (by decide)⟩

/-! ## gnupg_spawn_process: resource flow and standard-handle selection -/

/-- What a child standard-stream slot ends up connected to. -/
inductive StdSrc where
  | pipeEnd        -- the pipe end created for this stream
  | parentStdin    -- GetStdHandle (STD_INPUT_HANDLE)
  | parentStdout   -- GetStdHandle (STD_OUTPUT_HANDLE)
  | parentStderr   -- GetStdHandle (STD_ERROR_HANDLE)
  | nullDevice     -- w32_open_null
  deriving DecidableEq, Repr

/-- The resources `gnupg_spawn_process` can create, with `true` meaning the
resource is still open.  A stream (`infp`/`outfp`/`errfp`) owns the pipe end
it wraps, so `es_fclose` clears both flags. -/
structure SpawnLive where
  inpipe0 : Bool    -- inpipe[0], child read end
  inpipe1 : Bool    -- inpipe[1], parent write end
  infp : Bool       -- estream wrapping inpipe[1]
  outpipe0 : Bool   -- outpipe[0], parent read end
  outpipe1 : Bool   -- outpipe[1], child write end
  outfp : Bool      -- estream wrapping outpipe[0]
  errpipe0 : Bool   -- errpipe[0], parent read end
  errpipe1 : Bool   -- errpipe[1], child write end
  errfp : Bool      -- estream wrapping errpipe[0]
  nullhd_in : Bool  -- nullhd[0]
  nullhd_out : Bool -- nullhd[1]
  nullhd_err : Bool -- nullhd[2]
  deriving DecidableEq, Repr

/-- No resource live. -/
def noLive : SpawnLive :=
  ⟨false, false, false, false, false, false, false, false, false, false, false, false⟩

/-- The in-pipe resources after a successful stage 1 (pipe plus stream). -/
def liveIn (want_in : Bool) : SpawnLive :=
  ⟨want_in, want_in, want_in, false, false, false, false, false, false,
   false, false, false⟩

/-- The in- and out-pipe resources after successful stages 1 and 2. -/
def liveInOut (want_in want_out : Bool) : SpawnLive :=
  ⟨want_in, want_in, want_in, want_out, want_out, want_out, false, false, false,
   false, false, false⟩

/-- All pipe resources after successful stages 1-3. -/
def liveAll (want_in want_out want_err : Bool) : SpawnLive :=
  ⟨want_in, want_in, want_in, want_out, want_out, want_out,
   want_err, want_err, want_err, false, false, false⟩

/-- Only the opened null-device handles live. -/
def liveNull (n_in n_out n_err : Bool) : SpawnLive :=
  ⟨false, false, false, false, false, false, false, false, false,
   n_in, n_out, n_err⟩

/-- The resources intentionally retained for the caller on success: the
three requested streams together with the parent pipe ends they wrap. -/
def liveRetained (want_in want_out want_err : Bool) : SpawnLive :=
  ⟨false, want_in, want_in, want_out, false, want_out,
   want_err, false, want_err, false, false, false⟩

/-- Oracles for the fallible steps of `gnupg_spawn_process`:
pipe creations, stream wrappings, the command-line build (`xtrymalloc`) and
`CreateProcessW` (together with the `utf8_to_wchar` conversions, which fail
into the same branch).  `syserror` is `gpg_err_code_from_syserror ()`. -/
structure SpawnWorld where
  inpipe_ok : Bool
  infp_ok : Bool
  outpipe_ok : Bool
  outfp_ok : Bool
  errpipe_ok : Bool
  errfp_ok : Bool
  cmdline_ok : Bool
  create_ok : Bool
  syserror : Nat
  deriving DecidableEq, Repr

/-- Result of `gnupg_spawn_process`: the returned error code (0 = success),
the resources created by the call that are still open at return, and the
handles selected for the child's standard streams (set once control reaches
the selection code before `CreateProcessW`). -/
structure SpawnResult where
  err : Nat
  live : SpawnLive
  childStdin : Option StdSrc
  childStdout : Option StdSrc
  childStderr : Option StdSrc
  deriving DecidableEq, Repr

/-- `gnupg_spawn_process` (the estream-returning spawn): `want_in`,
`want_out`, `want_err` say whether `r_infp`, `r_outfp`, `r_errfp` are
non-null; `keep_stdin`, `keep_stdout`, `keep_stderr` are the
`GNUPG_SPAWN_KEEP_STDIN/STDOUT/STDERR` flag bits.  The body mirrors the C
control flow: create the stdin pipe and its stream, the stdout pipe and
stream, the stderr pipe and stream (each failure path closing exactly what
the C closes), build the command line, select the child standard handles
(opening null devices as needed), call `CreateProcessW`, and on success
close the child-side ends and null handles.  Note the C tests
`GNUPG_SPAWN_KEEP_STDOUT` — not `KEEP_STDERR` — when selecting the child's
stderr handle, and `keep_stderr` is consequently unused. -/
def gnupg_spawn_process
    (want_in want_out want_err keep_stdin keep_stdout keep_stderr : Bool)
    (w : SpawnWorld) : SpawnResult :=
  let _ := keep_stderr
  -- stage 1: stdin pipe and stream
  if want_in && !w.inpipe_ok then
    -- create_inheritable_pipe cleaned up its own partial state
    ⟨GPG_ERR_GENERAL, noLive, none, none, none⟩
  else if want_in && !w.infp_ok then
    -- CloseHandle (inpipe[0]); CloseHandle (inpipe[1])
    ⟨w.syserror, noLive, none, none, none⟩
  -- stage 2: stdout pipe and stream
  else if want_out && !w.outpipe_ok then
    -- returns without closing the stdin pipe resources
    ⟨GPG_ERR_GENERAL, liveIn want_in, none, none, none⟩
  else if want_out && !w.outfp_ok then
    -- closes outpipe[0], outpipe[1], then infp (or inpipe[1]) and inpipe[0]
    ⟨w.syserror, noLive, none, none, none⟩
  -- stage 3: stderr pipe and stream
  else if want_err && !w.errpipe_ok then
    -- returns without closing the stdin/stdout pipe resources
    ⟨GPG_ERR_GENERAL, liveInOut want_in want_out, none, none, none⟩
  else if want_err && !w.errfp_ok then
    -- closes errpipe[0], errpipe[1], then outfp/outpipe and infp/inpipe
    ⟨w.syserror, noLive, none, none, none⟩
  -- build the command line
  else if !w.cmdline_ok then
    -- `if (err) return err;` with no cleanup at all
    ⟨w.syserror, liveAll want_in want_out want_err, none, none, none⟩
  else
    -- null-device handles for the streams without a pipe
    let n_in := !want_in && !keep_stdin
    let n_out := !want_out && !keep_stdout
    let n_err := !want_err && !keep_stdout   -- C tests GNUPG_SPAWN_KEEP_STDOUT here
    let cin : StdSrc :=
      if want_in then StdSrc.pipeEnd
      else if keep_stdin then StdSrc.parentStdin else StdSrc.nullDevice
    let cout : StdSrc :=
      if want_out then StdSrc.pipeEnd
      else if keep_stdout then StdSrc.parentStdout else StdSrc.nullDevice
    let cerr : StdSrc :=
      if want_err then StdSrc.pipeEnd
      else if keep_stdout then StdSrc.parentStderr else StdSrc.nullDevice
    if !w.create_ok then
      -- closes infp/inpipe, outfp/outpipe, errfp/errpipe — but not nullhd[]
      ⟨GPG_ERR_GENERAL, liveNull n_in n_out n_err, some cin, some cout, some cerr⟩
    else
      -- success: close nullhd[] and the child-side pipe ends; the caller
      -- keeps the three streams with their parent-side ends
      ⟨0, liveRetained want_in want_out want_err, some cin, some cout, some cerr⟩

/-- C3 (code_bug): two error paths of `gnupg_spawn_process` leak.  If the
command-line build fails after the stdin pipe and its stream were created,
the function returns the error with the pipe read end, write end and stream
all still open; if `CreateProcessW` fails, the opened null-device handles
are not closed. -/
theorem gnupg_spawn_process_error_paths_leak :
    ((gnupg_spawn_process true false false false false false
        ⟨true, true, true, true, true, true, false, true, 7⟩).err = 7
      ∧ (gnupg_spawn_process true false false false false false
          ⟨true, true, true, true, true, true, false, true, 7⟩).live
        = liveIn true
      ∧ liveIn true ≠ noLive)
    ∧ ((gnupg_spawn_process false false false false false false
          ⟨true, true, true, true, true, true, true, false, 7⟩).err
        = GPG_ERR_GENERAL
      ∧ (gnupg_spawn_process false false false false false false
          ⟨true, true, true, true, true, true, true, false, 7⟩).live
        = liveNull true true true
      ∧ liveNull true true true ≠ noLive) := by
  refine ⟨⟨rfl, rfl, by decide⟩, ⟨rfl, rfl, by decide⟩⟩

/-- C7 (code_bug): when no stderr pipe is requested the child's
standard-error handle is selected by `GNUPG_SPAWN_KEEP_STDOUT`, not by
`GNUPG_SPAWN_KEEP_STDERR`: with KEEP_STDERR set and KEEP_STDOUT clear the
child gets the null device, and with KEEP_STDOUT set and KEEP_STDERR clear
the child gets the parent's standard error. -/
theorem gnupg_spawn_process_stderr_ignores_keep_stderr :
    (gnupg_spawn_process false false false false false true
        ⟨true, true, true, true, true, true, true, true, 7⟩).childStderr
      = some StdSrc.nullDevice
    ∧ (gnupg_spawn_process false false false false true false
        ⟨true, true, true, true, true, true, true, true, 7⟩).childStderr
      = some StdSrc.parentStderr
    ∧ some StdSrc.nullDevice ≠ some StdSrc.parentStderr := by
  refine ⟨rfl, rfl, by decide⟩

end Exechelp
